import Mathlib

/-!
# Verification of the API Notes binary writer (`APINotesWriter.cpp`)

A shallow embedding of the API notes writer: the in-memory accumulation state
(`WriterState`), the identifier/selector interning functions, the `add*`
mutators, and the byte-level serialization helpers, translated from
`APINotesWriter.cpp`.  The `llvm::DenseMap` / `llvm::StringMap` containers are
modelled as association lists in insertion order; `assert`-guarded operations
return `Option` (with `none` standing for the fatal assertion failure of the
reference behavior).  Types declared in `Types.h` / `APINotesFormat.h` (which
only the writer's usage reveals) are reconstructed from that usage and, where
noted, from the specification.
-/

/-- A byte string: C++ `StringRef` / `std::string` contents viewed as a list of
bytes. -/
abbrev ByteStr := List Nat

/-- First-match lookup in an association list, as `DenseMap::find` /
`StringMap::find`. -/
def alookup {α β : Type} [DecidableEq α] : List (α × β) → α → Option β
  | [], _ => none
  | (k, v) :: rest, key => if key = k then some v else alookup rest key

/-- In-place update of the first binding of a key (appending when absent), as
`DenseMap::operator[]` assignment on an existing or fresh key. -/
def aupdate {α β : Type} [DecidableEq α] : List (α × β) → α → β → List (α × β)
  | [], k, v => [(k, v)]
  | (k0, v0) :: rest, k, v =>
    if k = k0 then (k, v) :: rest else (k0, v0) :: aupdate rest k v

@[simp] theorem alookup_nil {α β : Type} [DecidableEq α] (k : α) :
    alookup ([] : List (α × β)) k = none := rfl

@[simp] theorem alookup_cons {α β : Type} [DecidableEq α] (k0 : α) (v0 : β)
    (rest : List (α × β)) (k : α) :
    alookup ((k0, v0) :: rest) k = if k = k0 then some v0 else alookup rest k := rfl

theorem alookup_append {α β : Type} [DecidableEq α] (l1 l2 : List (α × β)) (k : α) :
    alookup (l1 ++ l2) k =
      match alookup l1 k with
      | some v => some v
      | none => alookup l2 k := by
  induction l1 with
  | nil => simp
  | cons p rest ih =>
    obtain ⟨k0, v0⟩ := p
    by_cases h : k = k0 <;> simp [h, ih]

theorem alookup_append_fresh {α β : Type} [DecidableEq α] {l : List (α × β)} {k : α}
    (h : alookup l k = none) (v : β) : alookup (l ++ [(k, v)]) k = some v := by
  rw [alookup_append, h]; simp

theorem alookup_append_found {α β : Type} [DecidableEq α] {l : List (α × β)} {k : α}
    {v : β} (h : alookup l k = some v) (l2 : List (α × β)) :
    alookup (l ++ l2) k = some v := by
  rw [alookup_append, h]

theorem alookup_aupdate_self {α β : Type} [DecidableEq α] (l : List (α × β))
    (k : α) (v : β) : alookup (aupdate l k v) k = some v := by
  induction l with
  | nil => simp [aupdate]
  | cons p rest ih =>
    obtain ⟨k0, v0⟩ := p
    by_cases h : k = k0 <;> simp [aupdate, h, ih]

theorem alookup_aupdate_ne {α β : Type} [DecidableEq α] (l : List (α × β))
    {k k' : α} (hne : k' ≠ k) (v : β) :
    alookup (aupdate l k v) k' = alookup l k' := by
  induction l with
  | nil => simp [aupdate, hne]
  | cons p rest ih =>
    obtain ⟨k0, v0⟩ := p
    by_cases h : k = k0
    · subst h; simp [aupdate, hne]
    · by_cases h' : k' = k0 <;> simp [aupdate, h, h', ih]

theorem aupdate_length_of_mem {α β : Type} [DecidableEq α] (l : List (α × β))
    {k : α} (h : (alookup l k).isSome) (v : β) :
    (aupdate l k v).length = l.length := by
  induction l with
  | nil => simp [alookup] at h
  | cons p rest ih =>
    obtain ⟨k0, v0⟩ := p
    by_cases hk : k = k0
    · simp [aupdate, hk]
    · simp only [alookup_cons, hk, if_false] at h
      simp [aupdate, hk, ih h]

/-! ## Little-endian fixed-width integer encodings

`endian::Writer<little>::write<uintN_t>` emits the value's bytes least
significant first, truncated to the width. -/

/-- `write<uint16_t>`: two little-endian bytes. -/
def u16le (n : Nat) : ByteStr := [n % 256, n / 256 % 256]

/-- `write<uint32_t>`: four little-endian bytes. -/
def u32le (n : Nat) : ByteStr :=
  [n % 256, n / 256 % 256, n / 65536 % 256, n / 16777216 % 256]

/-- `write<uint64_t>`: eight little-endian bytes. -/
def u64le (n : Nat) : ByteStr :=
  [n % 256, n / 256 % 256, n / 65536 % 256, n / 16777216 % 256,
   n / 4294967296 % 256, n / 1099511627776 % 256,
   n / 281474976710656 % 256, n / 72057594037927936 % 256]

@[simp] theorem u16le_length (n : Nat) : (u16le n).length = 2 := rfl
@[simp] theorem u32le_length (n : Nat) : (u32le n).length = 4 := rfl
@[simp] theorem u64le_length (n : Nat) : (u64le n).length = 8 := rfl

/-! ## Entity info types

`Types.h` is not part of the sample; the fields below are reconstructed from
their uses in `APINotesWriter.cpp` (bitfield flags written by
`emitCommonEntityInfo`, strings, optional nullability values, parameter
payloads).  Strings are byte strings, optional values are `Option Nat`. -/

/-- Common availability/naming payload carried by every entity
(`CommonEntityInfo` of `Types.h`, reconstructed from `emitCommonEntityInfo`). -/
structure CommonEntityInfo where
  unavailableMsg : ByteStr
  unavailable : Bool
  unavailableInSwift : Bool
  swiftPrivate : Bool
  swiftName : ByteStr
deriving DecidableEq

/-- Common type payload: common entity payload plus bridging and error-domain
names (`CommonTypeInfo`, reconstructed from `emitCommonTypeInfo`). -/
structure CommonTypeInfo extends CommonEntityInfo where
  swiftBridge : ByteStr
  nsErrorDomain : ByteStr
deriving DecidableEq

/-- Objective-C class/protocol payload (`ObjCContextInfo`, reconstructed from
`ObjCContextTableInfo::EmitData`: default nullability and the
has-designated-inits flag). -/
structure ObjCContextInfo extends CommonTypeInfo where
  defaultNullability : Option Nat
  hasDesignatedInits : Bool
deriving DecidableEq

/-- Modelled from the spec: `ObjCContextInfo::operator|=` of `Types.h` (the
header is not in the sample).  The spec describes the context merge as a
"bitwise/field or policy: presence-flags accumulate": boolean flags are OR-ed;
already-present optional and string fields are kept, otherwise the newly
supplied value is taken. -/
def ObjCContextInfo.merge (l r : ObjCContextInfo) : ObjCContextInfo where
  unavailableMsg := if l.unavailableMsg = [] then r.unavailableMsg else l.unavailableMsg
  unavailable := l.unavailable || r.unavailable
  unavailableInSwift := l.unavailableInSwift || r.unavailableInSwift
  swiftPrivate := l.swiftPrivate || r.swiftPrivate
  swiftName := if l.swiftName = [] then r.swiftName else l.swiftName
  swiftBridge := if l.swiftBridge = [] then r.swiftBridge else l.swiftBridge
  nsErrorDomain := if l.nsErrorDomain = [] then r.nsErrorDomain else l.nsErrorDomain
  defaultNullability :=
    match l.defaultNullability with
    | some x => some x
    | none => r.defaultNullability
  hasDesignatedInits := l.hasDesignatedInits || r.hasDesignatedInits

/-- Variable payload: common entity payload plus optional nullability
(`VariableInfo`, reconstructed from `emitVariableInfo`). -/
structure VariableInfo extends CommonEntityInfo where
  nullability : Option Nat
deriving DecidableEq

/-- Objective-C property payload (`ObjCPropertyInfo = VariableInfo`). -/
abbrev ObjCPropertyInfo := VariableInfo

/-- Global variable payload (`GlobalVariableInfo = VariableInfo`). -/
abbrev GlobalVariableInfo := VariableInfo

/-- Per-parameter payload (`ParamInfo`, reconstructed from `emitFunctionInfo`:
no-escape flag and optional nullability). -/
structure ParamInfo where
  nullability : Option Nat
  noEscape : Bool
deriving DecidableEq

/-- Function payload (`FunctionInfo`, reconstructed from `emitFunctionInfo`). -/
structure FunctionInfo extends CommonEntityInfo where
  nullabilityAudited : Bool
  numAdjustedNullable : Nat
  nullabilityPayload : Nat
  params : List ParamInfo
deriving DecidableEq

/-- Objective-C method payload: function payload plus the three trailing flag
bytes written by `ObjCMethodTableInfo::EmitData`.  `factoryAsInit` is stored as
a byte (a small enum in `Types.h`). -/
structure ObjCMethodInfo extends FunctionInfo where
  designatedInit : Bool
  factoryAsInit : Nat
  required : Bool
deriving DecidableEq

/-- Global function payload (`GlobalFunctionInfo = FunctionInfo`). -/
abbrev GlobalFunctionInfo := FunctionInfo

/-- Enum constant payload (`EnumConstantInfo = CommonEntityInfo`). -/
abbrev EnumConstantInfo := CommonEntityInfo

/-- Tag payload (`TagInfo = CommonTypeInfo`). -/
abbrev TagInfo := CommonTypeInfo

/-- Typedef payload (`TypedefInfo = CommonTypeInfo`). -/
abbrev TypedefInfo := CommonTypeInfo

/-- A stored Objective-C selector: explicit piece count plus the interned
identifier IDs of the pieces (`StoredObjCSelector` of `APINotesFormat.h`, shape
visible from `getSelector` and `ObjCSelectorTableInfo`). -/
structure StoredObjCSelector where
  numPieces : Nat
  identifiers : List Nat
deriving DecidableEq

/-- A selector reference supplied by the caller: piece count plus the piece
strings (`ObjCSelectorRef` of `Types.h`, shape visible from `getSelector`). -/
structure ObjCSelectorRef where
  numPieces : Nat
  identifiers : List ByteStr
deriving DecidableEq

/-! ## Writer state and interning -/

/-- The accumulation state of `APINotesWriter::Implementation`.  Every
`DenseMap`/`StringMap` field is an association list in insertion order. -/
structure WriterState where
  /-- `IdentifierIDs : StringMap<IdentifierID>` -/
  identifierIDs : List (ByteStr × Nat)
  /-- `SelectorIDs : DenseMap<StoredObjCSelector, SelectorID>` -/
  selectorIDs : List (StoredObjCSelector × Nat)
  /-- `ModuleName` -/
  moduleName : ByteStr
  /-- `SwiftInferImportAsMember` -/
  swiftInferImportAsMember : Bool
  /-- `ObjCContexts`, keyed by (identifier ID, class-0/protocol-1),
  holding (context ID, info). -/
  objCContexts : List ((Nat × Nat) × (Nat × ObjCContextInfo))
  /-- `ObjCContextNames`: context ID to identifier ID of its name. -/
  objCContextNames : List (Nat × Nat)
  /-- `ObjCProperties`, keyed by (context ID, name ID, is-instance). -/
  objCProperties : List ((Nat × Nat × Bool) × ObjCPropertyInfo)
  /-- `ObjCMethods`, keyed by (context ID, selector ID, is-instance). -/
  objCMethods : List ((Nat × Nat × Bool) × ObjCMethodInfo)
  /-- `GlobalVariables`, keyed by identifier ID. -/
  globalVariables : List (Nat × GlobalVariableInfo)
  /-- `GlobalFunctions`, keyed by identifier ID. -/
  globalFunctions : List (Nat × GlobalFunctionInfo)
  /-- `EnumConstants`, keyed by identifier ID. -/
  enumConstants : List (Nat × EnumConstantInfo)
  /-- `Tags`, keyed by identifier ID. -/
  tags : List (Nat × TagInfo)
  /-- `Typedefs`, keyed by identifier ID. -/
  typedefs : List (Nat × TypedefInfo)
deriving DecidableEq

/-- `APINotesWriter::APINotesWriter(moduleName)`: a fresh writer. -/
def mkWriter (moduleName : ByteStr) : WriterState where
  identifierIDs := []
  selectorIDs := []
  moduleName := moduleName
  swiftInferImportAsMember := false
  objCContexts := []
  objCContextNames := []
  objCProperties := []
  objCMethods := []
  globalVariables := []
  globalFunctions := []
  enumConstants := []
  tags := []
  typedefs := []

/-- `Implementation::getIdentifier` on the bare identifier table: the empty
string maps to 0 without touching the table; a known string returns its ID;
a fresh string is inserted with ID `size + 1`. -/
def internIdent (tbl : List (ByteStr × Nat)) (identifier : ByteStr) :
    Nat × List (ByteStr × Nat) :=
  if identifier = [] then (0, tbl)
  else
    match alookup tbl identifier with
    | some id => (id, tbl)
    | none =>
      let id := tbl.length + 1
      (id, tbl ++ [(identifier, id)])

/-- `Implementation::getIdentifier`. -/
def WriterState.getIdentifier (st : WriterState) (identifier : ByteStr) :
    Nat × WriterState :=
  let r := internIdent st.identifierIDs identifier
  (r.1, { st with identifierIDs := r.2 })

/-- The piece-wise interning loop of `Implementation::getSelector`: interns
each piece string in order, threading the identifier table. -/
def internPieces (tbl : List (ByteStr × Nat)) :
    List ByteStr → List Nat × List (ByteStr × Nat)
  | [] => ([], tbl)
  | p :: rest =>
    let r := internIdent tbl p
    let rs := internPieces r.2 rest
    (r.1 :: rs.1, rs.2)

/-- The stored selector that `Implementation::getSelector` builds for a
selector reference: the reference's piece count is copied verbatim and the
pieces are interned. -/
def storedSelector (tbl : List (ByteStr × Nat)) (ref : ObjCSelectorRef) :
    StoredObjCSelector :=
  { numPieces := ref.numPieces, identifiers := (internPieces tbl ref.identifiers).1 }

/-- `Implementation::getSelector`: translate the reference into a stored
selector (interning the pieces), then deduplicate whole selectors; a fresh
selector receives ID `SelectorIDs.size()` (IDs start at 0). -/
def WriterState.getSelector (st : WriterState) (ref : ObjCSelectorRef) :
    Nat × WriterState :=
  let r := internPieces st.identifierIDs ref.identifiers
  let sel : StoredObjCSelector := { numPieces := ref.numPieces, identifiers := r.1 }
  let st1 := { st with identifierIDs := r.2 }
  match alookup st1.selectorIDs sel with
  | some id => (id, st1)
  | none =>
    (st1.selectorIDs.length,
     { st1 with selectorIDs := st1.selectorIDs ++ [(sel, st1.selectorIDs.length)] })

/-! ## Mutators

Each `add*` call interns its key components first, then consults the
corresponding map.  The non-context kinds `assert` that their key is absent;
the assertion failure of the reference behavior is modelled as `none`. -/

/-- `APINotesWriter::addObjCClass`: merges (`|=`) into an existing
(identifier, class) slot, otherwise inserts with the next context ID
(`ObjCContexts.size() + 1`) and records the reverse name mapping. -/
def addObjCClass (st : WriterState) (name : ByteStr) (info : ObjCContextInfo) :
    Nat × WriterState :=
  let r := st.getIdentifier name
  let st1 := r.2
  let key : Nat × Nat := (r.1, 0)
  match alookup st1.objCContexts key with
  | some kv =>
    (kv.1, { st1 with objCContexts := aupdate st1.objCContexts key (kv.1, kv.2.merge info) })
  | none =>
    let nextID := st1.objCContexts.length + 1
    (nextID,
     { st1 with
       objCContexts := st1.objCContexts ++ [(key, (nextID, info))],
       objCContextNames := aupdate st1.objCContextNames nextID r.1 })

/-- `APINotesWriter::addObjCProtocol`: as `addObjCClass` but with the
protocol kind tag 1. -/
def addObjCProtocol (st : WriterState) (name : ByteStr) (info : ObjCContextInfo) :
    Nat × WriterState :=
  let r := st.getIdentifier name
  let st1 := r.2
  let key : Nat × Nat := (r.1, 1)
  match alookup st1.objCContexts key with
  | some kv =>
    (kv.1, { st1 with objCContexts := aupdate st1.objCContexts key (kv.1, kv.2.merge info) })
  | none =>
    let nextID := st1.objCContexts.length + 1
    (nextID,
     { st1 with
       objCContexts := st1.objCContexts ++ [(key, (nextID, info))],
       objCContextNames := aupdate st1.objCContextNames nextID r.1 })

/-- `APINotesWriter::addObjCProperty`: asserts the (context, name,
is-instance) key is absent, then stores the payload. -/
def addObjCProperty (st : WriterState) (contextID : Nat) (name : ByteStr)
    (isInstance : Bool) (info : ObjCPropertyInfo) : Option WriterState :=
  let r := st.getIdentifier name
  let st1 := r.2
  let key : Nat × Nat × Bool := (contextID, r.1, isInstance)
  if (alookup st1.objCProperties key).isSome then none
  else some { st1 with objCProperties := aupdate st1.objCProperties key info }

/-- `DenseMap::operator[]` read on `ObjCContextNames`: returns the mapped
identifier ID, default-inserting 0 when the context ID is absent. -/
def contextNameOrDefault (names : List (Nat × Nat)) (contextID : Nat) :
    Nat × List (Nat × Nat) :=
  match alookup names contextID with
  | some nameID => (nameID, names)
  | none => (0, names ++ [(contextID, 0)])

/-- `APINotesWriter::addObjCMethod`: asserts the (context, selector,
is-instance) key is absent and stores the payload; a designated-initializer
method additionally asserts that a class entry exists under the context's name
(via the reverse name mapping, kind tag 0) and sets that entry's
has-designated-inits flag. -/
def addObjCMethod (st : WriterState) (contextID : Nat) (selector : ObjCSelectorRef)
    (isInstanceMethod : Bool) (info : ObjCMethodInfo) : Option WriterState :=
  let r := st.getSelector selector
  let st1 := r.2
  let key : Nat × Nat × Bool := (contextID, r.1, isInstanceMethod)
  if (alookup st1.objCMethods key).isSome then none
  else
    let st2 := { st1 with objCMethods := aupdate st1.objCMethods key info }
    if info.designatedInit then
      let n := contextNameOrDefault st2.objCContextNames contextID
      let st3 := { st2 with objCContextNames := n.2 }
      match alookup st3.objCContexts (n.1, 0) with
      | none => none
      | some kv =>
        some { st3 with
               objCContexts := aupdate st3.objCContexts (n.1, 0)
                 (kv.1, { kv.2 with hasDesignatedInits := true }) }
    else some st2

/-- `APINotesWriter::addGlobalVariable`: asserts the name key is absent. -/
def addGlobalVariable (st : WriterState) (name : ByteStr)
    (info : GlobalVariableInfo) : Option WriterState :=
  let r := st.getIdentifier name
  let st1 := r.2
  if (alookup st1.globalVariables r.1).isSome then none
  else some { st1 with globalVariables := aupdate st1.globalVariables r.1 info }

/-- `APINotesWriter::addGlobalFunction`: asserts the name key is absent. -/
def addGlobalFunction (st : WriterState) (name : ByteStr)
    (info : GlobalFunctionInfo) : Option WriterState :=
  let r := st.getIdentifier name
  let st1 := r.2
  if (alookup st1.globalFunctions r.1).isSome then none
  else some { st1 with globalFunctions := aupdate st1.globalFunctions r.1 info }

/-- `APINotesWriter::addEnumConstant`: asserts the name key is absent. -/
def addEnumConstant (st : WriterState) (name : ByteStr)
    (info : EnumConstantInfo) : Option WriterState :=
  let r := st.getIdentifier name
  let st1 := r.2
  if (alookup st1.enumConstants r.1).isSome then none
  else some { st1 with enumConstants := aupdate st1.enumConstants r.1 info }

/-- `APINotesWriter::addTag`: asserts the name key is absent. -/
def addTag (st : WriterState) (name : ByteStr) (info : TagInfo) :
    Option WriterState :=
  let r := st.getIdentifier name
  let st1 := r.2
  if (alookup st1.tags r.1).isSome then none
  else some { st1 with tags := aupdate st1.tags r.1 info }

/-- `APINotesWriter::addTypedef`: asserts the name key is absent. -/
def addTypedef (st : WriterState) (name : ByteStr) (info : TypedefInfo) :
    Option WriterState :=
  let r := st.getIdentifier name
  let st1 := r.2
  if (alookup st1.typedefs r.1).isSome then none
  else some { st1 with typedefs := aupdate st1.typedefs r.1 info }

/-- `APINotesWriter::addModuleOptions`. -/
def addModuleOptions (st : WriterState) (swiftInferImportAsMember : Bool) :
    WriterState :=
  { st with swiftInferImportAsMember := swiftInferImportAsMember }

/-! ## Payload serialization (`emit*` helpers) -/

/-- Bool to byte, as the implicit C++ bool-to-integer conversion. -/
def boolByte (b : Bool) : Nat := if b then 1 else 0

/-- `emitCommonEntityInfo`: one flag byte
(`SwiftPrivate << 2 | Unavailable << 1 | UnavailableInSwift`), then the
16-bit-length-prefixed unavailable message, then the 16-bit-length-prefixed
preferred external name. -/
def emitCommonEntityInfo (info : CommonEntityInfo) : ByteStr :=
  [(boolByte info.swiftPrivate * 4 + boolByte info.unavailable * 2 +
      boolByte info.unavailableInSwift) % 256] ++
  u16le info.unavailableMsg.length ++ info.unavailableMsg ++
  u16le info.swiftName.length ++ info.swiftName

/-- `getCommonEntityInfoSize`: `5 + UnavailableMsg.size() + SwiftName.size()`. -/
def getCommonEntityInfoSize (info : CommonEntityInfo) : Nat :=
  5 + info.unavailableMsg.length + info.swiftName.length

/-- `emitCommonTypeInfo`: the common entity payload followed by the
16-bit-length-prefixed bridge and error-domain names. -/
def emitCommonTypeInfo (info : CommonTypeInfo) : ByteStr :=
  emitCommonEntityInfo info.toCommonEntityInfo ++
  u16le info.swiftBridge.length ++ info.swiftBridge ++
  u16le info.nsErrorDomain.length ++ info.nsErrorDomain

/-- `getCommonTypeInfoSize`. -/
def getCommonTypeInfoSize (info : CommonTypeInfo) : Nat :=
  2 + info.swiftBridge.length + 2 + info.nsErrorDomain.length +
    getCommonEntityInfoSize info.toCommonEntityInfo

/-- `emitVariableInfo`: the common entity payload plus the two nullability
bytes (presence, value). -/
def emitVariableInfo (info : VariableInfo) : ByteStr :=
  emitCommonEntityInfo info.toCommonEntityInfo ++
  (match info.nullability with
   | some v => [1, v % 256]
   | none => [0, 0])

/-- `getVariableInfoSize`. -/
def getVariableInfoSize (info : VariableInfo) : Nat :=
  2 + getCommonEntityInfoSize info.toCommonEntityInfo

/-- The per-parameter payload byte of `emitFunctionInfo`:
`noescape << 3 | has-nullability << 2 | nullability-value`. -/
def paramPayloadByte (pi : ParamInfo) : Nat :=
  match pi.nullability with
  | some v => Nat.lor (boolByte pi.noEscape * 8 + 4) (v % 256)
  | none => boolByte pi.noEscape * 8

/-- `emitFunctionInfo`: common entity payload, audited flag byte,
adjusted-count byte, 64-bit nullability payload, 16-bit parameter count, one
payload byte per parameter. -/
def emitFunctionInfo (info : FunctionInfo) : ByteStr :=
  emitCommonEntityInfo info.toCommonEntityInfo ++
  [boolByte info.nullabilityAudited, info.numAdjustedNullable % 256] ++
  u64le info.nullabilityPayload ++
  u16le info.params.length ++
  info.params.map paramPayloadByte

/-- `getFunctionInfoSize`. -/
def getFunctionInfoSize (info : FunctionInfo) : Nat :=
  2 + 8 + getCommonEntityInfoSize info.toCommonEntityInfo + 2 + info.params.length

/-! ## On-disk hash-table entries

Each `*TableInfo` class contributes, per entry, the two 16-bit key/data
lengths (`EmitKeyDataLength`), the encoded key (`EmitKey`) and the encoded
payload (`EmitData`), concatenated in that order by the table generator. -/

/-- One serialized entry of the identifier table
(`IdentifierTableInfo`): string key, `uint32` ID payload. -/
def identifierTableEntry (e : ByteStr × Nat) : ByteStr :=
  u16le e.1.length ++ u16le 4 ++ e.1 ++ u32le e.2

/-- One serialized entry of the context table (`ObjCContextTableInfo`):
key `(uint32 identifierID, uint8 isProtocol)`, payload `uint32 contextID` +
common type payload + 3 bytes (nullability presence, nullability value,
has-designated-inits). -/
def objCContextTableEntry (e : (Nat × Nat) × (Nat × ObjCContextInfo)) : ByteStr :=
  u16le 5 ++ u16le (4 + getCommonTypeInfoSize e.2.2.toCommonTypeInfo + 3) ++
  (u32le e.1.1 ++ [e.1.2 % 256]) ++
  (u32le e.2.1 ++ emitCommonTypeInfo e.2.2.toCommonTypeInfo ++
   (match e.2.2.defaultNullability with
    | some v => [1, v % 256]
    | none => [0, 0]) ++
   [boolByte e.2.2.hasDesignatedInits])

/-- One serialized entry of the property table (`ObjCPropertyTableInfo`). -/
def objCPropertyTableEntry (e : (Nat × Nat × Bool) × ObjCPropertyInfo) : ByteStr :=
  u16le 9 ++ u16le (getVariableInfoSize e.2) ++
  (u32le e.1.1 ++ u32le e.1.2.1 ++ [boolByte e.1.2.2]) ++
  emitVariableInfo e.2

/-- One serialized entry of the method table (`ObjCMethodTableInfo`): the
function payload plus the three trailing flag bytes. -/
def objCMethodTableEntry (e : (Nat × Nat × Bool) × ObjCMethodInfo) : ByteStr :=
  u16le 9 ++ u16le (getFunctionInfoSize e.2.toFunctionInfo + 3) ++
  (u32le e.1.1 ++ u32le e.1.2.1 ++ [boolByte e.1.2.2]) ++
  (emitFunctionInfo e.2.toFunctionInfo ++
   [boolByte e.2.designatedInit, e.2.factoryAsInit % 256, boolByte e.2.required])

/-- One serialized entry of the selector table (`ObjCSelectorTableInfo`):
key `uint16 NumPieces` + `uint32` per piece, payload `uint32` selector ID. -/
def objCSelectorTableEntry (e : StoredObjCSelector × Nat) : ByteStr :=
  u16le ((2 + 4 * e.1.identifiers.length) % 65536) ++ u16le 4 ++
  (u16le e.1.numPieces ++ (e.1.identifiers.map u32le).flatten) ++
  u32le e.2

/-- One serialized entry of the global variable table
(`GlobalVariableTableInfo`). -/
def globalVariableTableEntry (e : Nat × GlobalVariableInfo) : ByteStr :=
  u16le 4 ++ u16le (getVariableInfoSize e.2) ++ u32le e.1 ++ emitVariableInfo e.2

/-- One serialized entry of the global function table
(`GlobalFunctionTableInfo`). -/
def globalFunctionTableEntry (e : Nat × GlobalFunctionInfo) : ByteStr :=
  u16le 4 ++ u16le (getFunctionInfoSize e.2) ++ u32le e.1 ++ emitFunctionInfo e.2

/-- One serialized entry of the enum constant table (`EnumConstantTableInfo`). -/
def enumConstantTableEntry (e : Nat × EnumConstantInfo) : ByteStr :=
  u16le 4 ++ u16le (getCommonEntityInfoSize e.2) ++ u32le e.1 ++
  emitCommonEntityInfo e.2

/-- One serialized entry of the tag table (`TagTableInfo`). -/
def tagTableEntry (e : Nat × TagInfo) : ByteStr :=
  u16le 4 ++ u16le (getCommonTypeInfoSize e.2) ++ u32le e.1 ++ emitCommonTypeInfo e.2

/-- One serialized entry of the typedef table (`TypedefTableInfo`). -/
def typedefTableEntry (e : Nat × TypedefInfo) : ByteStr :=
  u16le 4 ++ u16le (getCommonTypeInfoSize e.2) ++ u32le e.1 ++ emitCommonTypeInfo e.2

/-- Modelled from the spec: `llvm::OnDiskChainedHashTableGenerator::Emit`
(LLVM support library, outside this repository).  Per the spec, the generator
appends the serialized entries (the table body) to the stream and stores the
table's root after the body, returning the root's offset within the stream;
the bucket array itself is abstracted to its entry count, which none of the
verified claims inspect. -/
def onDiskTableEmit (entries : List ByteStr) (stream : ByteStr) : ByteStr × Nat :=
  let afterBody := stream ++ entries.flatten
  (afterBody ++ u32le entries.length, afterBody.length)

/-- The shared block-body pattern of every `write*Block`: write a reserved
4-byte zero into the blob stream first ("make sure that no bucket is at
offset 0"), then emit the table.  Returns (table offset, blob). -/
def buildTableBlob (entries : List ByteStr) : Nat × ByteStr :=
  let r := onDiskTableEmit entries (u32le 0)
  (r.2, r.1)

/-! ## Blocks and the output stream -/

/-- A record emitted inside a block. -/
inductive BCRecord where
  /-- `control_block::MetadataLayout`: version pair. -/
  | metadata (major minor : Nat)
  /-- `control_block::ModuleNameLayout`. -/
  | moduleName (name : ByteStr)
  /-- `control_block::ModuleOptionsLayout`. -/
  | moduleOptions (swiftInferImportAsMember : Bool)
  /-- A `*DataLayout` record holding a table offset and the table blob. -/
  | tableData (tableOffset : Nat) (blob : ByteStr)
  /-- `BLOCKINFO_CODE_SETBID`. -/
  | setBID (id : Nat)
  /-- `BLOCKINFO_CODE_BLOCKNAME`. -/
  | blockName (name : String)
  /-- `BLOCKINFO_CODE_SETRECORDNAME` (record ID prepended to the name). -/
  | setRecordName (id : Nat) (name : String)
deriving DecidableEq

/-- One item of the serialized output: a signature byte or a block. -/
inductive OutputItem where
  | sig (byte : Nat)
  | block (id : Nat) (records : List BCRecord)
deriving DecidableEq

/-- `llvm::bitc::BLOCKINFO_BLOCK_ID` (fixed by the bitstream container). -/
def blockInfoBlockID : Nat := 0

/-- Modelled from the spec: the block IDs of `APINotesFormat.h` (not in the
sample).  The spec fixes only that each block has its own ID; the concrete
values below are distinct application block IDs in declaration order. -/
def controlBlockID : Nat := 8

/-- Identifier block ID (see `controlBlockID`). -/
def identifierBlockID : Nat := 9

/-- Context block ID (see `controlBlockID`). -/
def objcContextBlockID : Nat := 10

/-- Property block ID (see `controlBlockID`). -/
def objcPropertyBlockID : Nat := 11

/-- Method block ID (see `controlBlockID`). -/
def objcMethodBlockID : Nat := 12

/-- Selector block ID (see `controlBlockID`). -/
def objcSelectorBlockID : Nat := 13

/-- Global variable block ID (see `controlBlockID`). -/
def globalVariableBlockID : Nat := 14

/-- Global function block ID (see `controlBlockID`). -/
def globalFunctionBlockID : Nat := 15

/-- Enum constant block ID (see `controlBlockID`). -/
def enumConstantBlockID : Nat := 16

/-- Tag block ID (see `controlBlockID`). -/
def tagBlockID : Nat := 17

/-- Typedef block ID (see `controlBlockID`). -/
def typedefBlockID : Nat := 18

/-- Modelled from the spec: `VERSION_MAJOR` of `APINotesFormat.h` (not in the
sample); a fixed constant whose exact value no claim depends on. -/
def versionMajor : Nat := 1

/-- Modelled from the spec: `VERSION_MINOR` of `APINotesFormat.h` (not in the
sample); a fixed constant whose exact value no claim depends on. -/
def versionMinor : Nat := 6

/-- Modelled from the spec: `API_NOTES_SIGNATURE` of `APINotesFormat.h` (not
in the sample); the fixed multi-byte signature emitted first.  The claims
depend only on it being a fixed multi-byte constant. -/
def apiNotesSignature : ByteStr := [226, 156, 168, 1]

/-- `writeBlockInfoBlock`: the block-name directory.  The source names the
control, identifier, context, property, method, selector, global variable and
global function blocks (and their data records), in that order. -/
def blockInfoContents : List BCRecord :=
  [.setBID controlBlockID, .blockName "CONTROL_BLOCK",
   .setRecordName 1 "METADATA",
   .setRecordName 2 "MODULE_NAME",
   .setBID identifierBlockID, .blockName "IDENTIFIER_BLOCK",
   .setRecordName 1 "IDENTIFIER_DATA",
   .setBID objcContextBlockID, .blockName "OBJC_CONTEXT_BLOCK",
   .setRecordName 1 "OBJC_CONTEXT_DATA",
   .setBID objcPropertyBlockID, .blockName "OBJC_PROPERTY_BLOCK",
   .setRecordName 1 "OBJC_PROPERTY_DATA",
   .setBID objcMethodBlockID, .blockName "OBJC_METHOD_BLOCK",
   .setRecordName 1 "OBJC_METHOD_DATA",
   .setBID objcSelectorBlockID, .blockName "OBJC_SELECTOR_BLOCK",
   .setRecordName 1 "OBJC_SELECTOR_DATA",
   .setBID globalVariableBlockID, .blockName "GLOBAL_VARIABLE_BLOCK",
   .setRecordName 1 "GLOBAL_VARIABLE_DATA",
   .setBID globalFunctionBlockID, .blockName "GLOBAL_FUNCTION_BLOCK",
   .setRecordName 1 "GLOBAL_FUNCTION_DATA"]

/-- `writeControlBlock`: version metadata, module name, and the module
options record only when `SwiftInferImportAsMember` is set. -/
def controlBlockContents (st : WriterState) : List BCRecord :=
  [.metadata versionMajor versionMinor, .moduleName st.moduleName] ++
  (if st.swiftInferImportAsMember then
    [.moduleOptions st.swiftInferImportAsMember]
  else [])

/-- `writeIdentifierBlock`: no record at all when no identifiers were
interned, else one data record holding the table blob. -/
def writeIdentifierBlockContents (st : WriterState) : List BCRecord :=
  if st.identifierIDs = [] then []
  else
    let r := buildTableBlob (st.identifierIDs.map identifierTableEntry)
    [.tableData r.1 r.2]

/-- `writeObjCContextBlock`. -/
def writeObjCContextBlockContents (st : WriterState) : List BCRecord :=
  if st.objCContexts = [] then []
  else
    let r := buildTableBlob (st.objCContexts.map objCContextTableEntry)
    [.tableData r.1 r.2]

/-- `writeObjCPropertyBlock`. -/
def writeObjCPropertyBlockContents (st : WriterState) : List BCRecord :=
  if st.objCProperties = [] then []
  else
    let r := buildTableBlob (st.objCProperties.map objCPropertyTableEntry)
    [.tableData r.1 r.2]

/-- `writeObjCMethodBlock`. -/
def writeObjCMethodBlockContents (st : WriterState) : List BCRecord :=
  if st.objCMethods = [] then []
  else
    let r := buildTableBlob (st.objCMethods.map objCMethodTableEntry)
    [.tableData r.1 r.2]

/-- `writeObjCSelectorBlock`. -/
def writeObjCSelectorBlockContents (st : WriterState) : List BCRecord :=
  if st.selectorIDs = [] then []
  else
    let r := buildTableBlob (st.selectorIDs.map objCSelectorTableEntry)
    [.tableData r.1 r.2]

/-- `writeGlobalVariableBlock`. -/
def writeGlobalVariableBlockContents (st : WriterState) : List BCRecord :=
  if st.globalVariables = [] then []
  else
    let r := buildTableBlob (st.globalVariables.map globalVariableTableEntry)
    [.tableData r.1 r.2]

/-- `writeGlobalFunctionBlock`. -/
def writeGlobalFunctionBlockContents (st : WriterState) : List BCRecord :=
  if st.globalFunctions = [] then []
  else
    let r := buildTableBlob (st.globalFunctions.map globalFunctionTableEntry)
    [.tableData r.1 r.2]

/-- `writeEnumConstantBlock`. -/
def writeEnumConstantBlockContents (st : WriterState) : List BCRecord :=
  if st.enumConstants = [] then []
  else
    let r := buildTableBlob (st.enumConstants.map enumConstantTableEntry)
    [.tableData r.1 r.2]

/-- `writeTagBlock`. -/
def writeTagBlockContents (st : WriterState) : List BCRecord :=
  if st.tags = [] then []
  else
    let r := buildTableBlob (st.tags.map tagTableEntry)
    [.tableData r.1 r.2]

/-- `writeTypedefBlock`. -/
def writeTypedefBlockContents (st : WriterState) : List BCRecord :=
  if st.typedefs = [] then []
  else
    let r := buildTableBlob (st.typedefs.map typedefTableEntry)
    [.tableData r.1 r.2]

/-- `Implementation::writeToStream`: the signature bytes followed by the
blocks, emitted front to back in the source's fixed order. -/
def writeToStream (st : WriterState) : List OutputItem :=
  apiNotesSignature.map OutputItem.sig ++
  [OutputItem.block blockInfoBlockID blockInfoContents,
   OutputItem.block controlBlockID (controlBlockContents st),
   OutputItem.block identifierBlockID (writeIdentifierBlockContents st),
   OutputItem.block objcContextBlockID (writeObjCContextBlockContents st),
   OutputItem.block objcPropertyBlockID (writeObjCPropertyBlockContents st),
   OutputItem.block objcMethodBlockID (writeObjCMethodBlockContents st),
   OutputItem.block objcSelectorBlockID (writeObjCSelectorBlockContents st),
   OutputItem.block globalVariableBlockID (writeGlobalVariableBlockContents st),
   OutputItem.block globalFunctionBlockID (writeGlobalFunctionBlockContents st),
   OutputItem.block enumConstantBlockID (writeEnumConstantBlockContents st),
   OutputItem.block tagBlockID (writeTagBlockContents st),
   OutputItem.block typedefBlockID (writeTypedefBlockContents st)]

/-- The block IDs of an output stream, in emission order. -/
def outputBlockIds : List OutputItem → List Nat
  | [] => []
  | OutputItem.sig _ :: rest => outputBlockIds rest
  | OutputItem.block id _ :: rest => id :: outputBlockIds rest

/-! ## Basic properties of interning -/

theorem internIdent_empty (tbl : List (ByteStr × Nat)) : internIdent tbl [] = (0, tbl) := rfl

theorem internIdent_found {tbl : List (ByteStr × Nat)} {s : ByteStr} {i : Nat}
    (hs : s ≠ []) (h : alookup tbl s = some i) : internIdent tbl s = (i, tbl) := by
  simp [internIdent, hs, h]

theorem internIdent_fresh {tbl : List (ByteStr × Nat)} {s : ByteStr}
    (hs : s ≠ []) (h : alookup tbl s = none) :
    internIdent tbl s = (tbl.length + 1, tbl ++ [(s, tbl.length + 1)]) := by
  simp [internIdent, hs, h]

theorem internIdent_lookup_self {tbl : List (ByteStr × Nat)} {s : ByteStr}
    (hs : s ≠ []) : alookup (internIdent tbl s).2 s = some (internIdent tbl s).1 := by
  rcases h : alookup tbl s with _ | i
  · rw [internIdent_fresh hs h]
    exact alookup_append_fresh h _
  · rw [internIdent_found hs h]
    exact h

theorem internIdent_preserves {tbl : List (ByteStr × Nat)} {s' : ByteStr} {i : Nat}
    (h : alookup tbl s' = some i) (s : ByteStr) :
    alookup (internIdent tbl s).2 s' = some i := by
  by_cases hs : s = []
  · subst hs; exact h
  · rcases h0 : alookup tbl s with _ | j
    · rw [internIdent_fresh hs h0]
      exact alookup_append_found h _
    · rw [internIdent_found hs h0]
      exact h

theorem internIdent_idem (tbl : List (ByteStr × Nat)) (s : ByteStr) :
    internIdent (internIdent tbl s).2 s = internIdent tbl s := by
  by_cases hs : s = []
  · subst hs; rfl
  · have h := @internIdent_lookup_self tbl s hs
    rw [internIdent_found hs h]

theorem internPieces_preserves {s : ByteStr} {i : Nat} :
    ∀ (pieces : List ByteStr) (tbl : List (ByteStr × Nat)),
      alookup tbl s = some i → alookup (internPieces tbl pieces).2 s = some i := by
  intro pieces
  induction pieces with
  | nil => intro tbl h; exact h
  | cons p rest ih =>
    intro tbl h
    exact ih _ (internIdent_preserves h p)

/-- Re-running the piece-interning loop over any table that preserves all the
bindings of its own result table returns the same IDs and leaves the new table
untouched. -/
theorem internPieces_stable :
    ∀ (pieces : List ByteStr) (tbl tbl' : List (ByteStr × Nat)),
      (∀ s i, alookup (internPieces tbl pieces).2 s = some i → alookup tbl' s = some i) →
      internPieces tbl' pieces = ((internPieces tbl pieces).1, tbl') := by
  intro pieces
  induction pieces with
  | nil => intro tbl tbl' _; rfl
  | cons p rest ih =>
    intro tbl tbl' hext
    have hfirst : internIdent tbl' p = ((internIdent tbl p).1, tbl') := by
      by_cases hp : p = []
      · subst hp; rfl
      · have hself : alookup (internIdent tbl p).2 p = some (internIdent tbl p).1 :=
          internIdent_lookup_self hp
        have hkeep : alookup (internPieces (internIdent tbl p).2 rest).2 p =
            some (internIdent tbl p).1 := internPieces_preserves rest _ hself
        have : alookup tbl' p = some (internIdent tbl p).1 := by
          apply hext
          simpa [internPieces] using hkeep
        exact internIdent_found hp this
    have hrest : internPieces tbl' rest =
        ((internPieces (internIdent tbl p).2 rest).1, tbl') := by
      apply ih
      intro s i hsi
      apply hext
      simpa [internPieces] using hsi
    simp [internPieces, hfirst, hrest]

theorem internPieces_idem (tbl : List (ByteStr × Nat)) (pieces : List ByteStr) :
    internPieces (internPieces tbl pieces).2 pieces =
      ((internPieces tbl pieces).1, (internPieces tbl pieces).2) :=
  internPieces_stable pieces tbl _ (fun _ _ h => h)

/-! ## State projections of the interning operations -/

@[simp] theorem getIdentifier_fst (st : WriterState) (s : ByteStr) :
    (st.getIdentifier s).1 = (internIdent st.identifierIDs s).1 := rfl

@[simp] theorem getIdentifier_identifierIDs (st : WriterState) (s : ByteStr) :
    (st.getIdentifier s).2.identifierIDs = (internIdent st.identifierIDs s).2 := rfl

@[simp] theorem getIdentifier_selectorIDs (st : WriterState) (s : ByteStr) :
    (st.getIdentifier s).2.selectorIDs = st.selectorIDs := rfl

@[simp] theorem getIdentifier_objCContexts (st : WriterState) (s : ByteStr) :
    (st.getIdentifier s).2.objCContexts = st.objCContexts := rfl

@[simp] theorem getIdentifier_objCContextNames (st : WriterState) (s : ByteStr) :
    (st.getIdentifier s).2.objCContextNames = st.objCContextNames := rfl

@[simp] theorem getIdentifier_objCProperties (st : WriterState) (s : ByteStr) :
    (st.getIdentifier s).2.objCProperties = st.objCProperties := rfl

@[simp] theorem getIdentifier_objCMethods (st : WriterState) (s : ByteStr) :
    (st.getIdentifier s).2.objCMethods = st.objCMethods := rfl

@[simp] theorem getIdentifier_globalVariables (st : WriterState) (s : ByteStr) :
    (st.getIdentifier s).2.globalVariables = st.globalVariables := rfl

@[simp] theorem getIdentifier_globalFunctions (st : WriterState) (s : ByteStr) :
    (st.getIdentifier s).2.globalFunctions = st.globalFunctions := rfl

@[simp] theorem getIdentifier_enumConstants (st : WriterState) (s : ByteStr) :
    (st.getIdentifier s).2.enumConstants = st.enumConstants := rfl

@[simp] theorem getIdentifier_tags (st : WriterState) (s : ByteStr) :
    (st.getIdentifier s).2.tags = st.tags := rfl

@[simp] theorem getIdentifier_typedefs (st : WriterState) (s : ByteStr) :
    (st.getIdentifier s).2.typedefs = st.typedefs := rfl

theorem getSelector_eq (st : WriterState) (ref : ObjCSelectorRef) :
    st.getSelector ref =
      (let r := internPieces st.identifierIDs ref.identifiers
       let sel : StoredObjCSelector := ⟨ref.numPieces, r.1⟩
       match alookup st.selectorIDs sel with
       | some id => (id, { st with identifierIDs := r.2 })
       | none =>
         (st.selectorIDs.length,
          { st with identifierIDs := r.2,
                    selectorIDs := st.selectorIDs ++ [(sel, st.selectorIDs.length)] })) := rfl

@[simp] theorem getSelector_objCContexts (st : WriterState) (ref : ObjCSelectorRef) :
    (st.getSelector ref).2.objCContexts = st.objCContexts := by
  cases h : alookup st.selectorIDs
      ⟨ref.numPieces, (internPieces st.identifierIDs ref.identifiers).1⟩ <;>
    simp [WriterState.getSelector, h]

@[simp] theorem getSelector_objCContextNames (st : WriterState) (ref : ObjCSelectorRef) :
    (st.getSelector ref).2.objCContextNames = st.objCContextNames := by
  cases h : alookup st.selectorIDs
      ⟨ref.numPieces, (internPieces st.identifierIDs ref.identifiers).1⟩ <;>
    simp [WriterState.getSelector, h]

@[simp] theorem getSelector_objCMethods (st : WriterState) (ref : ObjCSelectorRef) :
    (st.getSelector ref).2.objCMethods = st.objCMethods := by
  cases h : alookup st.selectorIDs
      ⟨ref.numPieces, (internPieces st.identifierIDs ref.identifiers).1⟩ <;>
    simp [WriterState.getSelector, h]

@[simp] theorem getSelector_objCProperties (st : WriterState) (ref : ObjCSelectorRef) :
    (st.getSelector ref).2.objCProperties = st.objCProperties := by
  cases h : alookup st.selectorIDs
      ⟨ref.numPieces, (internPieces st.identifierIDs ref.identifiers).1⟩ <;>
    simp [WriterState.getSelector, h]

@[simp] theorem getSelector_identifierIDs (st : WriterState) (ref : ObjCSelectorRef) :
    (st.getSelector ref).2.identifierIDs =
      (internPieces st.identifierIDs ref.identifiers).2 := by
  cases h : alookup st.selectorIDs
      ⟨ref.numPieces, (internPieces st.identifierIDs ref.identifiers).1⟩ <;>
    simp [WriterState.getSelector, h]

/-! ## C4: identifier interning -/

/-- C4.  Identifier interning is idempotent within a writer session: the empty
string always maps to ID 0 without touching the table; re-interning a string
returns the same ID and leaves the state unchanged; existing assignments are
never disturbed by later interning; and a fresh non-empty string receives the
next sequential ID `size + 1` (so distinct non-empty strings get 1, 2, ... in
first-seen order), appended at the end of the table. -/
theorem getIdentifier_interning_spec (st : WriterState) (s s' : ByteStr) (i : Nat) :
    st.getIdentifier [] = (0, st) ∧
    (st.getIdentifier s).2.getIdentifier s = st.getIdentifier s ∧
    (s ≠ [] → alookup st.identifierIDs s = some i → st.getIdentifier s = (i, st)) ∧
    (alookup st.identifierIDs s' = some i →
      alookup (st.getIdentifier s).2.identifierIDs s' = some i) ∧
    (s ≠ [] → alookup st.identifierIDs s = none →
      st.getIdentifier s =
        (st.identifierIDs.length + 1,
         { st with identifierIDs :=
             st.identifierIDs ++ [(s, st.identifierIDs.length + 1)] })) := by
  refine ⟨?_, ?_, ?_, ?_, ?_⟩
  · simp [WriterState.getIdentifier, internIdent_empty]
  · simp [WriterState.getIdentifier, internIdent_idem]
  · intro hs h
    simp [WriterState.getIdentifier, internIdent_found hs h]
  · intro h
    simpa [WriterState.getIdentifier] using internIdent_preserves h s
  · intro hs h
    simp [WriterState.getIdentifier, internIdent_fresh hs h]

/-- Witness for C4 at concrete inputs. -/
theorem getIdentifier_interning_spec_witness :
    (mkWriter [77]).getIdentifier [65] =
      (1, { mkWriter [77] with identifierIDs := [([65], 1)] }) ∧
    ({ mkWriter [77] with identifierIDs := [([65], 1)] } : WriterState).getIdentifier [65] =
      (1, { mkWriter [77] with identifierIDs := [([65], 1)] }) ∧
    alookup (({ mkWriter [77] with
        identifierIDs := [([65], 1)] } : WriterState).getIdentifier [66]).2.identifierIDs
        [65] = some 1 := by
  have h1 := (getIdentifier_interning_spec (mkWriter [77]) [65] [65] 1).2.2.2.2
    (by decide) (by decide)
  have h2 := (getIdentifier_interning_spec
    ({ mkWriter [77] with identifierIDs := [([65], 1)] }) [65] [65] 1).2.2.1
    (by decide) (by decide)
  have h3 := (getIdentifier_interning_spec
    ({ mkWriter [77] with identifierIDs := [([65], 1)] }) [66] [65] 1).2.2.2.1
    (by decide)
  exact ⟨by rw [h1]; rfl, h2, h3⟩

/-! ## C1: duplicate keys are rejected for all non-context kinds -/

/-- C1.  For every entity kind other than Context, submitting a key that is
already present is a fatal contract violation: the operation hits the
`assert` (modelled as `none`), so the record already stored under the key is
neither overwritten nor merged. -/
theorem addDuplicateKeyRejected (st : WriterState) (contextID : Nat)
    (name : ByteStr) (isInstance : Bool) (sel : ObjCSelectorRef)
    (pi : ObjCPropertyInfo) (mi : ObjCMethodInfo) (vi : GlobalVariableInfo)
    (fi : GlobalFunctionInfo) (ei : EnumConstantInfo) (ti : TagInfo)
    (di : TypedefInfo) :
    ((alookup st.objCProperties
        (contextID, (st.getIdentifier name).1, isInstance)).isSome →
      addObjCProperty st contextID name isInstance pi = none) ∧
    ((alookup st.objCMethods
        (contextID, (st.getSelector sel).1, isInstance)).isSome →
      addObjCMethod st contextID sel isInstance mi = none) ∧
    ((alookup st.globalVariables (st.getIdentifier name).1).isSome →
      addGlobalVariable st name vi = none) ∧
    ((alookup st.globalFunctions (st.getIdentifier name).1).isSome →
      addGlobalFunction st name fi = none) ∧
    ((alookup st.enumConstants (st.getIdentifier name).1).isSome →
      addEnumConstant st name ei = none) ∧
    ((alookup st.tags (st.getIdentifier name).1).isSome →
      addTag st name ti = none) ∧
    ((alookup st.typedefs (st.getIdentifier name).1).isSome →
      addTypedef st name di = none) := by
  refine ⟨?_, ?_, ?_, ?_, ?_, ?_, ?_⟩ <;> intro h
  · simp only [getIdentifier_fst] at h
    simp [addObjCProperty, h]
  · simp [addObjCMethod, h]
  · simp only [getIdentifier_fst] at h
    simp [addGlobalVariable, h]
  · simp only [getIdentifier_fst] at h
    simp [addGlobalFunction, h]
  · simp only [getIdentifier_fst] at h
    simp [addEnumConstant, h]
  · simp only [getIdentifier_fst] at h
    simp [addTag, h]
  · simp only [getIdentifier_fst] at h
    simp [addTypedef, h]

/-- An empty common entity payload, used by concrete scenarios. -/
def ceSample : CommonEntityInfo := ⟨[], false, false, false, []⟩

/-- An empty common type payload. -/
def ctSample : CommonTypeInfo := { ceSample with swiftBridge := [], nsErrorDomain := [] }

/-- An empty context payload. -/
def ctxSample : ObjCContextInfo :=
  { ctSample with defaultNullability := none, hasDesignatedInits := false }

/-- An empty variable payload. -/
def varSample : VariableInfo := { ceSample with nullability := none }

/-- An empty function payload. -/
def funSample : FunctionInfo :=
  { ceSample with nullabilityAudited := false, numAdjustedNullable := 0,
                  nullabilityPayload := 0, params := [] }

/-- A method payload with no flags set. -/
def methSample : ObjCMethodInfo :=
  { funSample with designatedInit := false, factoryAsInit := 0, required := false }

/-- A writer state holding one record of every non-context kind, with
identifier `[65]` interned as ID 1 and the one-piece selector over it as
selector ID 0. -/
def dupState : WriterState :=
  { mkWriter [77] with
    identifierIDs := [([65], 1)],
    selectorIDs := [(⟨1, [1]⟩, 0)],
    objCProperties := [((1, 1, true), varSample)],
    objCMethods := [((1, 0, true), methSample)],
    globalVariables := [(1, varSample)],
    globalFunctions := [(1, funSample)],
    enumConstants := [(1, ceSample)],
    tags := [(1, ctSample)],
    typedefs := [(1, ctSample)] }

/-- Witness for C1: every duplicate submission against `dupState` is
rejected. -/
theorem addDuplicateKeyRejected_witness :
    addObjCProperty dupState 1 [65] true varSample = none ∧
    addObjCMethod dupState 1 ⟨1, [[65]]⟩ true methSample = none ∧
    addGlobalVariable dupState [65] varSample = none ∧
    addGlobalFunction dupState [65] funSample = none ∧
    addEnumConstant dupState [65] ceSample = none ∧
    addTag dupState [65] ctSample = none ∧
    addTypedef dupState [65] ctSample = none := by
  have T := addDuplicateKeyRejected dupState 1 [65] true ⟨1, [[65]]⟩
    varSample methSample varSample funSample ceSample ctSample ctSample
  exact ⟨T.1 (by decide), T.2.1 (by decide), T.2.2.1 (by decide),
    T.2.2.2.1 (by decide), T.2.2.2.2.1 (by decide), T.2.2.2.2.2.1 (by decide),
    T.2.2.2.2.2.2 (by decide)⟩

/-! ## C2: re-adding a context merges instead of creating a new entity -/

theorem addObjCClass_found {st : WriterState} {name : ByteStr} {k : Nat}
    {old : ObjCContextInfo} (i : ObjCContextInfo)
    (h : alookup st.objCContexts ((internIdent st.identifierIDs name).1, 0) =
      some (k, old)) :
    addObjCClass st name i =
      (k, { st with
            identifierIDs := (internIdent st.identifierIDs name).2,
            objCContexts := aupdate st.objCContexts
              ((internIdent st.identifierIDs name).1, 0) (k, old.merge i) }) := by
  simp [addObjCClass, WriterState.getIdentifier, h]

theorem addObjCClass_fresh {st : WriterState} {name : ByteStr} (i : ObjCContextInfo)
    (h : alookup st.objCContexts ((internIdent st.identifierIDs name).1, 0) = none) :
    addObjCClass st name i =
      (st.objCContexts.length + 1,
       { st with
         identifierIDs := (internIdent st.identifierIDs name).2,
         objCContexts := st.objCContexts ++
           [(((internIdent st.identifierIDs name).1, 0),
             (st.objCContexts.length + 1, i))],
         objCContextNames := aupdate st.objCContextNames
           (st.objCContexts.length + 1) (internIdent st.identifierIDs name).1 }) := by
  simp [addObjCClass, WriterState.getIdentifier, h]

theorem addObjCProtocol_found {st : WriterState} {name : ByteStr} {k : Nat}
    {old : ObjCContextInfo} (i : ObjCContextInfo)
    (h : alookup st.objCContexts ((internIdent st.identifierIDs name).1, 1) =
      some (k, old)) :
    addObjCProtocol st name i =
      (k, { st with
            identifierIDs := (internIdent st.identifierIDs name).2,
            objCContexts := aupdate st.objCContexts
              ((internIdent st.identifierIDs name).1, 1) (k, old.merge i) }) := by
  simp [addObjCProtocol, WriterState.getIdentifier, h]

theorem addObjCProtocol_fresh {st : WriterState} {name : ByteStr} (i : ObjCContextInfo)
    (h : alookup st.objCContexts ((internIdent st.identifierIDs name).1, 1) = none) :
    addObjCProtocol st name i =
      (st.objCContexts.length + 1,
       { st with
         identifierIDs := (internIdent st.identifierIDs name).2,
         objCContexts := st.objCContexts ++
           [(((internIdent st.identifierIDs name).1, 1),
             (st.objCContexts.length + 1, i))],
         objCContextNames := aupdate st.objCContextNames
           (st.objCContexts.length + 1) (internIdent st.identifierIDs name).1 }) := by
  simp [addObjCProtocol, WriterState.getIdentifier, h]

theorem addObjCClass_lookup (st : WriterState) (name : ByteStr) (i : ObjCContextInfo) :
    ∃ v, alookup (addObjCClass st name i).2.objCContexts
        ((internIdent st.identifierIDs name).1, 0) =
      some ((addObjCClass st name i).1, v) ∧
      (addObjCClass st name i).2.identifierIDs = (internIdent st.identifierIDs name).2 := by
  cases h : alookup st.objCContexts ((internIdent st.identifierIDs name).1, 0) with
  | none =>
    refine ⟨i, ?_, ?_⟩
    · rw [addObjCClass_fresh i h]
      exact alookup_append_fresh h _
    · rw [addObjCClass_fresh i h]
  | some kv =>
    obtain ⟨k, old⟩ := kv
    refine ⟨old.merge i, ?_, ?_⟩
    · rw [addObjCClass_found i h]
      exact alookup_aupdate_self _ _ _
    · rw [addObjCClass_found i h]

theorem addObjCProtocol_lookup (st : WriterState) (name : ByteStr)
    (i : ObjCContextInfo) :
    ∃ v, alookup (addObjCProtocol st name i).2.objCContexts
        ((internIdent st.identifierIDs name).1, 1) =
      some ((addObjCProtocol st name i).1, v) ∧
      (addObjCProtocol st name i).2.identifierIDs =
        (internIdent st.identifierIDs name).2 := by
  cases h : alookup st.objCContexts ((internIdent st.identifierIDs name).1, 1) with
  | none =>
    refine ⟨i, ?_, ?_⟩
    · rw [addObjCProtocol_fresh i h]
      exact alookup_append_fresh h _
    · rw [addObjCProtocol_fresh i h]
  | some kv =>
    obtain ⟨k, old⟩ := kv
    refine ⟨old.merge i, ?_, ?_⟩
    · rw [addObjCProtocol_found i h]
      exact alookup_aupdate_self _ _ _
    · rw [addObjCProtocol_found i h]

/-- C2.  Re-adding a context with the same (identifier, kind) key creates no
new entity: the second `addObjCClass` (resp. `addObjCProtocol`) returns the
same context ID as the first, the stored info becomes the merge (`|=`) of the
previously stored info with the newly supplied one, the entity count does not
grow — and the merge ORs the boolean flags. -/
theorem contextReaddMergesWithStableHandle (st : WriterState) (name : ByteStr)
    (i1 i2 : ObjCContextInfo) :
    ((addObjCClass (addObjCClass st name i1).2 name i2).1 =
        (addObjCClass st name i1).1 ∧
      ∃ prev,
        alookup (addObjCClass st name i1).2.objCContexts
            ((internIdent st.identifierIDs name).1, 0) =
          some ((addObjCClass st name i1).1, prev) ∧
        alookup (addObjCClass (addObjCClass st name i1).2 name i2).2.objCContexts
            ((internIdent st.identifierIDs name).1, 0) =
          some ((addObjCClass st name i1).1, prev.merge i2) ∧
        (addObjCClass (addObjCClass st name i1).2 name i2).2.objCContexts.length =
          (addObjCClass st name i1).2.objCContexts.length) ∧
    ((addObjCProtocol (addObjCProtocol st name i1).2 name i2).1 =
        (addObjCProtocol st name i1).1 ∧
      ∃ prev,
        alookup (addObjCProtocol st name i1).2.objCContexts
            ((internIdent st.identifierIDs name).1, 1) =
          some ((addObjCProtocol st name i1).1, prev) ∧
        alookup
            (addObjCProtocol (addObjCProtocol st name i1).2 name i2).2.objCContexts
            ((internIdent st.identifierIDs name).1, 1) =
          some ((addObjCProtocol st name i1).1, prev.merge i2) ∧
        (addObjCProtocol (addObjCProtocol st name i1).2 name i2).2.objCContexts.length =
          (addObjCProtocol st name i1).2.objCContexts.length) ∧
    (∀ a b : ObjCContextInfo,
      (a.merge b).hasDesignatedInits = (a.hasDesignatedInits || b.hasDesignatedInits) ∧
      (a.merge b).unavailable = (a.unavailable || b.unavailable) ∧
      (a.merge b).unavailableInSwift = (a.unavailableInSwift || b.unavailableInSwift) ∧
      (a.merge b).swiftPrivate = (a.swiftPrivate || b.swiftPrivate)) := by
  refine ⟨?_, ?_, fun a b => ⟨rfl, rfl, rfl, rfl⟩⟩
  · obtain ⟨v, hv, hids⟩ := addObjCClass_lookup st name i1
    have hkey : (internIdent (addObjCClass st name i1).2.identifierIDs name).1 =
        (internIdent st.identifierIDs name).1 := by
      rw [hids, internIdent_idem]
    have h2 := @addObjCClass_found ((addObjCClass st name i1).2) name
      ((addObjCClass st name i1).1) v i2 (by rw [hkey]; exact hv)
    constructor
    · rw [h2]
    · refine ⟨v, hv, ?_, ?_⟩
      · rw [h2]
        simp only [hkey]
        exact alookup_aupdate_self _ _ _
      · rw [h2]
        exact aupdate_length_of_mem _ (by rw [hkey, hv]; rfl) _
  · obtain ⟨v, hv, hids⟩ := addObjCProtocol_lookup st name i1
    have hkey : (internIdent (addObjCProtocol st name i1).2.identifierIDs name).1 =
        (internIdent st.identifierIDs name).1 := by
      rw [hids, internIdent_idem]
    have h2 := @addObjCProtocol_found ((addObjCProtocol st name i1).2) name
      ((addObjCProtocol st name i1).1) v i2 (by rw [hkey]; exact hv)
    constructor
    · rw [h2]
    · refine ⟨v, hv, ?_, ?_⟩
      · rw [h2]
        simp only [hkey]
        exact alookup_aupdate_self _ _ _
      · rw [h2]
        exact aupdate_length_of_mem _ (by rw [hkey, hv]; rfl) _

/-! ## C3 / C10: designated-initializer propagation -/

theorem addObjCMethod_designated_found {st : WriterState} {contextID nid k : Nat}
    {cinfo : ObjCContextInfo} {sel : ObjCSelectorRef} {inst : Bool}
    {mi : ObjCMethodInfo}
    (hfresh : alookup st.objCMethods (contextID, (st.getSelector sel).1, inst) = none)
    (hdi : mi.designatedInit = true)
    (hname : alookup st.objCContextNames contextID = some nid)
    (hctx : alookup st.objCContexts (nid, 0) = some (k, cinfo)) :
    addObjCMethod st contextID sel inst mi =
      some { (st.getSelector sel).2 with
             objCMethods := aupdate st.objCMethods
               (contextID, (st.getSelector sel).1, inst) mi,
             objCContexts := aupdate st.objCContexts (nid, 0)
               (k, { cinfo with hasDesignatedInits := true }) } := by
  simp [addObjCMethod, hfresh, hdi, contextNameOrDefault, hname, hctx]

theorem addObjCMethod_designated_missing {st : WriterState} {contextID : Nat}
    {sel : ObjCSelectorRef} {inst : Bool} {mi : ObjCMethodInfo}
    (hfresh : alookup st.objCMethods (contextID, (st.getSelector sel).1, inst) = none)
    (hdi : mi.designatedInit = true)
    (hctx : alookup st.objCContexts
      ((contextNameOrDefault st.objCContextNames contextID).1, 0) = none) :
    addObjCMethod st contextID sel inst mi = none := by
  simp [addObjCMethod, hfresh, hdi, hctx]

/-- A method payload flagged as a designated initializer. -/
def diMeth : ObjCMethodInfo := { methSample with designatedInit := true }

/-- A writer holding protocol `[80]` (handle 1) and class `[80]` (handle 2). -/
def protocolThenClassState : WriterState :=
  (addObjCClass (addObjCProtocol (mkWriter [77]) [80] ctxSample).2 [80] ctxSample).2

/-- Counterexample to C3 as stated: handle 1 is returned by the writer for
protocol `[80]`; adding a designated-initializer method under that handle
succeeds (a same-named class exists), yet the stored record of the owning
context — the protocol entry `([80]-ID, 1)` — still has
`hasDesignatedInits = false`; only the class-kind entry was flagged. -/
theorem designatedInitOnProtocolLeavesProtocolUnset :
    (addObjCProtocol (mkWriter [77]) [80] ctxSample).1 = 1 ∧
    diMeth.designatedInit = true ∧
    (addObjCMethod protocolThenClassState 1 ⟨1, [[70]]⟩ true diMeth).isSome = true ∧
    alookup ((addObjCMethod protocolThenClassState 1 ⟨1, [[70]]⟩ true
        diMeth).getD (mkWriter [])).objCContexts (1, 1) = some (1, ctxSample) ∧
    ctxSample.hasDesignatedInits = false := by decide

/-- C3 (amended).  For a context handle whose name has a class-kind entry —
in particular every handle returned by `addObjCClass` — adding a method whose
designated-initializer flag is set succeeds (for a fresh method key) and the
stored record of that class entry has its has-designated-inits flag set to
true afterwards, even though the context was never re-added with that flag;
for a protocol handle the flag lands on the same-named class entry, not on
the protocol record. -/
theorem designatedInitMarksOwningClass (st : WriterState) (contextID nid k : Nat)
    (cinfo : ObjCContextInfo) (sel : ObjCSelectorRef) (inst : Bool)
    (mi : ObjCMethodInfo)
    (hname : alookup st.objCContextNames contextID = some nid)
    (hctx : alookup st.objCContexts (nid, 0) = some (k, cinfo))
    (hdi : mi.designatedInit = true)
    (hfresh : alookup st.objCMethods (contextID, (st.getSelector sel).1, inst) = none) :
    ∃ st2, addObjCMethod st contextID sel inst mi = some st2 ∧
      alookup st2.objCContexts (nid, 0) =
        some (k, { cinfo with hasDesignatedInits := true }) := by
  refine ⟨_, addObjCMethod_designated_found hfresh hdi hname hctx, ?_⟩
  exact alookup_aupdate_self _ _ _

/-- A writer holding just class `[70]` as handle 1. -/
def singleClassState : WriterState := (addObjCClass (mkWriter [77]) [70] ctxSample).2

/-- Witness for the amended C3 on the concrete single-class writer. -/
theorem designatedInitMarksOwningClass_witness :
    ∃ st2, addObjCMethod singleClassState 1 ⟨1, [[70]]⟩ true diMeth = some st2 ∧
      alookup st2.objCContexts (1, 0) =
        some (1, { ctxSample with hasDesignatedInits := true }) :=
  designatedInitMarksOwningClass singleClassState 1 1 1 ctxSample ⟨1, [[70]]⟩ true
    diMeth (by decide) (by decide) (by decide) (by decide)

/-- C10.  Designated-initializer propagation resolves the handle through the
reverse name mapping and always targets the class-kind entry (kind tag 0) of
that name: protocol entries are never modified by it, and when no class entry
exists under the resolved name the addition trips the assertion (modelled as
`none`), so a previously added same-named class is a precondition. -/
theorem designatedInitTargetsClassEntryOnly (st : WriterState)
    (contextID nid k : Nat) (cinfo : ObjCContextInfo) (sel : ObjCSelectorRef)
    (inst : Bool) (mi : ObjCMethodInfo) :
    (alookup st.objCContextNames contextID = some nid →
      alookup st.objCContexts (nid, 0) = some (k, cinfo) →
      mi.designatedInit = true →
      alookup st.objCMethods (contextID, (st.getSelector sel).1, inst) = none →
      ∃ st2, addObjCMethod st contextID sel inst mi = some st2 ∧
        alookup st2.objCContexts (nid, 0) =
          some (k, { cinfo with hasDesignatedInits := true }) ∧
        ∀ n, alookup st2.objCContexts (n, 1) = alookup st.objCContexts (n, 1)) ∧
    (mi.designatedInit = true →
      alookup st.objCMethods (contextID, (st.getSelector sel).1, inst) = none →
      alookup st.objCContexts
        ((contextNameOrDefault st.objCContextNames contextID).1, 0) = none →
      addObjCMethod st contextID sel inst mi = none) := by
  constructor
  · intro hname hctx hdi hfresh
    refine ⟨_, addObjCMethod_designated_found hfresh hdi hname hctx, ?_, ?_⟩
    · exact alookup_aupdate_self _ _ _
    · intro n
      exact alookup_aupdate_ne _ (by simp) _
  · intro hdi hfresh hctx
    exact addObjCMethod_designated_missing hfresh hdi hctx

/-- A writer holding only protocol `[80]` as handle 1 (no same-named class). -/
def singleProtocolState : WriterState :=
  (addObjCProtocol (mkWriter [77]) [80] ctxSample).2

/-- Witness for C10: the flagged-update branch on the single-class writer and
the assertion-failure branch on the class-less protocol writer. -/
theorem designatedInitTargetsClassEntryOnly_witness :
    (∃ st2, addObjCMethod singleClassState 1 ⟨1, [[71]]⟩ false diMeth = some st2 ∧
      alookup st2.objCContexts (1, 0) =
        some (1, { ctxSample with hasDesignatedInits := true }) ∧
      ∀ n, alookup st2.objCContexts (n, 1) =
        alookup singleClassState.objCContexts (n, 1)) ∧
    addObjCMethod singleProtocolState 1 ⟨1, [[80]]⟩ true diMeth = none := by
  constructor
  · exact (designatedInitTargetsClassEntryOnly singleClassState 1 1 1 ctxSample
      ⟨1, [[71]]⟩ false diMeth).1 (by decide) (by decide) (by decide) (by decide)
  · exact (designatedInitTargetsClassEntryOnly singleProtocolState 1 0 0 ctxSample
      ⟨1, [[80]]⟩ true diMeth).2 (by decide) (by decide) (by decide)

/-! ## C5: selector interning -/

theorem alookup_append_cases {α β : Type} [DecidableEq α] {l1 l2 : List (α × β)}
    {k : α} {v : β} (h : alookup (l1 ++ l2) k = some v) :
    alookup l1 k = some v ∨ (alookup l1 k = none ∧ alookup l2 k = some v) := by
  rw [alookup_append] at h
  cases h0 : alookup l1 k with
  | none => rw [h0] at h; exact Or.inr ⟨rfl, h⟩
  | some w => rw [h0] at h; exact Or.inl h

/-- Well-formedness of the selector table: distinct stored selectors hold
distinct IDs, and every ID is below the table size.  This holds for every
table the writer actually builds (IDs are handed out as the size at insertion
time). -/
def SelectorTableWF (tbl : List (StoredObjCSelector × Nat)) : Prop :=
  (∀ k1 k2 i, alookup tbl k1 = some i → alookup tbl k2 = some i → k1 = k2) ∧
  (∀ k i, alookup tbl k = some i → i < tbl.length)

theorem selectorTableWF_nil : SelectorTableWF [] :=
  ⟨fun k1 _ i h1 _ => by simp at h1, fun k i h => by simp at h⟩

theorem selectorTableWF_append {tbl : List (StoredObjCSelector × Nat)}
    (h : SelectorTableWF tbl) (k0 : StoredObjCSelector) :
    SelectorTableWF (tbl ++ [(k0, tbl.length)]) := by
  have hsingle : ∀ (k : StoredObjCSelector) (i : Nat),
      alookup [(k0, tbl.length)] k = some i → k = k0 ∧ i = tbl.length := by
    intro k i hk
    simp only [alookup_cons, alookup_nil] at hk
    by_cases hkk : k = k0
    · rw [if_pos hkk] at hk
      exact ⟨hkk, (Option.some.inj hk).symm⟩
    · rw [if_neg hkk] at hk
      exact absurd hk (by simp)
  constructor
  · intro k1 k2 i h1 h2
    rcases alookup_append_cases h1 with h1x | ⟨h1n, h1x⟩ <;>
      rcases alookup_append_cases h2 with h2x | ⟨h2n, h2x⟩
    · exact h.1 _ _ _ h1x h2x
    · obtain ⟨hk2, hi⟩ := hsingle _ _ h2x
      exact absurd (hi ▸ h.2 _ _ h1x) (lt_irrefl _)
    · obtain ⟨hk1, hi⟩ := hsingle _ _ h1x
      exact absurd (hi ▸ h.2 _ _ h2x) (lt_irrefl _)
    · obtain ⟨hk1, _⟩ := hsingle _ _ h1x
      obtain ⟨hk2, _⟩ := hsingle _ _ h2x
      rw [hk1, hk2]
  · intro k i hk
    simp only [List.length_append, List.length_cons, List.length_nil]
    rcases alookup_append_cases hk with hx | ⟨hn, hx⟩
    · have := h.2 _ _ hx
      omega
    · obtain ⟨_, hi⟩ := hsingle _ _ hx
      omega

theorem getSelector_found {st : WriterState} {ref : ObjCSelectorRef} {id : Nat}
    (h : alookup st.selectorIDs (storedSelector st.identifierIDs ref) = some id) :
    st.getSelector ref =
      (id, { st with identifierIDs := (internPieces st.identifierIDs ref.identifiers).2 }) := by
  simp only [storedSelector] at h
  simp [WriterState.getSelector, h]

theorem getSelector_fresh {st : WriterState} {ref : ObjCSelectorRef}
    (h : alookup st.selectorIDs (storedSelector st.identifierIDs ref) = none) :
    st.getSelector ref =
      (st.selectorIDs.length,
       { st with
         identifierIDs := (internPieces st.identifierIDs ref.identifiers).2,
         selectorIDs := st.selectorIDs ++
           [(storedSelector st.identifierIDs ref, st.selectorIDs.length)] }) := by
  simp only [storedSelector] at h
  simp [WriterState.getSelector, storedSelector, h]

theorem getSelector_lookup_self (st : WriterState) (ref : ObjCSelectorRef) :
    alookup (st.getSelector ref).2.selectorIDs (storedSelector st.identifierIDs ref) =
      some (st.getSelector ref).1 := by
  cases h : alookup st.selectorIDs (storedSelector st.identifierIDs ref) with
  | none =>
    rw [getSelector_fresh h]
    exact alookup_append_fresh h _
  | some id =>
    rw [getSelector_found h]
    exact h

theorem selectorTableWF_getSelector {st : WriterState} (ref : ObjCSelectorRef)
    (h : SelectorTableWF st.selectorIDs) :
    SelectorTableWF (st.getSelector ref).2.selectorIDs := by
  cases h0 : alookup st.selectorIDs (storedSelector st.identifierIDs ref) with
  | none =>
    rw [getSelector_fresh h0]
    exact selectorTableWF_append h _
  | some id =>
    rw [getSelector_found h0]
    exact h

theorem selector_id_iff {st : WriterState} (hwf : SelectorTableWF st.selectorIDs)
    (ref1 ref2 : ObjCSelectorRef) :
    (((st.getSelector ref1).2.getSelector ref2).1 = (st.getSelector ref1).1 ↔
      storedSelector (st.getSelector ref1).2.identifierIDs ref2 =
        storedSelector st.identifierIDs ref1) := by
  have hself := getSelector_lookup_self st ref1
  have hwf1 := selectorTableWF_getSelector ref1 hwf
  cases h2 : alookup (st.getSelector ref1).2.selectorIDs
      (storedSelector (st.getSelector ref1).2.identifierIDs ref2) with
  | some id2 =>
    rw [getSelector_found h2]
    constructor
    · intro he
      exact hwf1.1 _ _ _ (he ▸ h2) hself
    · intro hk
      rw [hk] at h2
      exact Option.some.inj (h2.symm.trans hself)
  | none =>
    rw [getSelector_fresh h2]
    constructor
    · intro he
      exact absurd (he ▸ hwf1.2 _ _ hself) (lt_irrefl _)
    · intro hk
      rw [hk] at h2
      exact absurd hself (by rw [h2]; simp)

/-- C5 (amended).  Selector interning composes from per-piece identifier
interning and deduplicates whole selectors keyed by the stored
(piece-count, piece-ID-sequence) pair: the stored key copies the supplied
piece count verbatim and interns the pieces in order, the interned selector is
retrievable under exactly that key, and two successively interned selectors
receive the same ID iff their stored keys coincide.  In particular a selector
supplied with 0 pieces keeps piece-count 0 — it is a distinct key from the
1-piece selector over the same pieces and never shares its ID. -/
theorem selectorInterningSpec (st : WriterState) (ref ref1 ref2 : ObjCSelectorRef)
    (pieces : List ByteStr) :
    (storedSelector st.identifierIDs ref).numPieces = ref.numPieces ∧
    (storedSelector st.identifierIDs ref).identifiers =
      (internPieces st.identifierIDs ref.identifiers).1 ∧
    alookup (st.getSelector ref).2.selectorIDs (storedSelector st.identifierIDs ref) =
      some (st.getSelector ref).1 ∧
    (SelectorTableWF st.selectorIDs →
      (((st.getSelector ref1).2.getSelector ref2).1 = (st.getSelector ref1).1 ↔
        storedSelector (st.getSelector ref1).2.identifierIDs ref2 =
          storedSelector st.identifierIDs ref1)) ∧
    (SelectorTableWF st.selectorIDs →
      ((st.getSelector ⟨0, pieces⟩).2.getSelector ⟨1, pieces⟩).1 ≠
        (st.getSelector ⟨0, pieces⟩).1) := by
  refine ⟨rfl, rfl, getSelector_lookup_self st ref, fun hwf => selector_id_iff hwf ref1 ref2, ?_⟩
  intro hwf he
  have hk := (selector_id_iff hwf ⟨0, pieces⟩ ⟨1, pieces⟩).1 he
  have : (storedSelector ((st.getSelector ⟨0, pieces⟩).2.identifierIDs) ⟨1, pieces⟩).numPieces =
      (storedSelector st.identifierIDs ⟨0, pieces⟩).numPieces := by rw [hk]
  simp [storedSelector] at this

/-- Counterexample to C5 as stated: interning a selector supplied with 0
pieces stores piece-count 0 (not 1), and it does not share its encoding with
the 1-piece selector over the same piece: the two receive distinct IDs 0
and 1. -/
theorem zeroPieceSelectorNotNormalized :
    storedSelector (mkWriter [77]).identifierIDs ⟨0, [[70]]⟩ =
      { numPieces := 0, identifiers := [1] } ∧
    ((mkWriter [77]).getSelector ⟨0, [[70]]⟩).1 = 0 ∧
    (((mkWriter [77]).getSelector ⟨0, [[70]]⟩).2.getSelector ⟨1, [[70]]⟩).1 = 1 := by
  decide

/-- Witness for the amended C5 at concrete selectors. -/
theorem selectorInterningSpec_witness :
    alookup ((mkWriter [77]).getSelector ⟨2, [[70], [71]]⟩).2.selectorIDs
        (storedSelector (mkWriter [77]).identifierIDs ⟨2, [[70], [71]]⟩) =
      some ((mkWriter [77]).getSelector ⟨2, [[70], [71]]⟩).1 ∧
    ((((mkWriter [77]).getSelector ⟨2, [[70], [71]]⟩).2.getSelector
          ⟨2, [[70], [71]]⟩).1 =
        ((mkWriter [77]).getSelector ⟨2, [[70], [71]]⟩).1 ↔
      storedSelector ((mkWriter [77]).getSelector ⟨2, [[70], [71]]⟩).2.identifierIDs
          ⟨2, [[70], [71]]⟩ =
        storedSelector (mkWriter [77]).identifierIDs ⟨2, [[70], [71]]⟩) ∧
    (((mkWriter [77]).getSelector ⟨0, [[70]]⟩).2.getSelector ⟨1, [[70]]⟩).1 ≠
      ((mkWriter [77]).getSelector ⟨0, [[70]]⟩).1 := by
  have T := selectorInterningSpec (mkWriter [77]) ⟨2, [[70], [71]]⟩
    ⟨2, [[70], [71]]⟩ ⟨2, [[70], [71]]⟩ [[70]]
  exact ⟨T.2.2.1, T.2.2.2.1 selectorTableWF_nil, T.2.2.2.2 selectorTableWF_nil⟩

/-! ## C6 / C7: block emission -/

/-- C6.  A kind whose accumulated collection is empty (and the identifier
table when nothing was interned) contributes a block that is entered and
closed with zero records — no table data record at all — and that empty block
still appears in the output stream. -/
theorem emptyCollectionsEmitEmptyBlocks (st : WriterState) :
    (st.identifierIDs = [] → writeIdentifierBlockContents st = [] ∧
      OutputItem.block identifierBlockID [] ∈ writeToStream st) ∧
    (st.objCContexts = [] → writeObjCContextBlockContents st = [] ∧
      OutputItem.block objcContextBlockID [] ∈ writeToStream st) ∧
    (st.objCProperties = [] → writeObjCPropertyBlockContents st = [] ∧
      OutputItem.block objcPropertyBlockID [] ∈ writeToStream st) ∧
    (st.objCMethods = [] → writeObjCMethodBlockContents st = [] ∧
      OutputItem.block objcMethodBlockID [] ∈ writeToStream st) ∧
    (st.selectorIDs = [] → writeObjCSelectorBlockContents st = [] ∧
      OutputItem.block objcSelectorBlockID [] ∈ writeToStream st) ∧
    (st.globalVariables = [] → writeGlobalVariableBlockContents st = [] ∧
      OutputItem.block globalVariableBlockID [] ∈ writeToStream st) ∧
    (st.globalFunctions = [] → writeGlobalFunctionBlockContents st = [] ∧
      OutputItem.block globalFunctionBlockID [] ∈ writeToStream st) ∧
    (st.enumConstants = [] → writeEnumConstantBlockContents st = [] ∧
      OutputItem.block enumConstantBlockID [] ∈ writeToStream st) ∧
    (st.tags = [] → writeTagBlockContents st = [] ∧
      OutputItem.block tagBlockID [] ∈ writeToStream st) ∧
    (st.typedefs = [] → writeTypedefBlockContents st = [] ∧
      OutputItem.block typedefBlockID [] ∈ writeToStream st) := by
  refine ⟨?_, ?_, ?_, ?_, ?_, ?_, ?_, ?_, ?_, ?_⟩ <;> intro h
  · exact ⟨by simp [writeIdentifierBlockContents, h],
      by simp [writeToStream, writeIdentifierBlockContents, h]⟩
  · exact ⟨by simp [writeObjCContextBlockContents, h],
      by simp [writeToStream, writeObjCContextBlockContents, h]⟩
  · exact ⟨by simp [writeObjCPropertyBlockContents, h],
      by simp [writeToStream, writeObjCPropertyBlockContents, h]⟩
  · exact ⟨by simp [writeObjCMethodBlockContents, h],
      by simp [writeToStream, writeObjCMethodBlockContents, h]⟩
  · exact ⟨by simp [writeObjCSelectorBlockContents, h],
      by simp [writeToStream, writeObjCSelectorBlockContents, h]⟩
  · exact ⟨by simp [writeGlobalVariableBlockContents, h],
      by simp [writeToStream, writeGlobalVariableBlockContents, h]⟩
  · exact ⟨by simp [writeGlobalFunctionBlockContents, h],
      by simp [writeToStream, writeGlobalFunctionBlockContents, h]⟩
  · exact ⟨by simp [writeEnumConstantBlockContents, h],
      by simp [writeToStream, writeEnumConstantBlockContents, h]⟩
  · exact ⟨by simp [writeTagBlockContents, h],
      by simp [writeToStream, writeTagBlockContents, h]⟩
  · exact ⟨by simp [writeTypedefBlockContents, h],
      by simp [writeToStream, writeTypedefBlockContents, h]⟩

/-- Witness for C6 on a fresh writer (all collections empty). -/
theorem emptyCollectionsEmitEmptyBlocks_witness :
    (writeIdentifierBlockContents (mkWriter [77]) = [] ∧
      OutputItem.block identifierBlockID [] ∈ writeToStream (mkWriter [77])) ∧
    (writeObjCContextBlockContents (mkWriter [77]) = [] ∧
      OutputItem.block objcContextBlockID [] ∈ writeToStream (mkWriter [77])) ∧
    (writeTypedefBlockContents (mkWriter [77]) = [] ∧
      OutputItem.block typedefBlockID [] ∈ writeToStream (mkWriter [77])) := by
  have T := emptyCollectionsEmitEmptyBlocks (mkWriter [77])
  exact ⟨T.1 rfl, T.2.1 rfl, T.2.2.2.2.2.2.2.2.2 rfl⟩

/-- C7.  `writeToStream` is a pure function of the accumulated state and
emits, in this fixed order: the multi-byte signature, the block-info
directory, the control block (version record, then module name, then a module
options record only when the infer-import-as-member flag is set), the
identifier block, then the entity blocks in the order contexts, properties,
methods, selectors, global variables, global functions, enum constants, tags,
typedefs. -/
theorem writeToStreamLayout (st : WriterState) :
    writeToStream st =
      apiNotesSignature.map OutputItem.sig ++
      [OutputItem.block blockInfoBlockID blockInfoContents,
       OutputItem.block controlBlockID
         ([BCRecord.metadata versionMajor versionMinor,
           BCRecord.moduleName st.moduleName] ++
          (if st.swiftInferImportAsMember then
            [BCRecord.moduleOptions st.swiftInferImportAsMember]
          else [])),
       OutputItem.block identifierBlockID (writeIdentifierBlockContents st),
       OutputItem.block objcContextBlockID (writeObjCContextBlockContents st),
       OutputItem.block objcPropertyBlockID (writeObjCPropertyBlockContents st),
       OutputItem.block objcMethodBlockID (writeObjCMethodBlockContents st),
       OutputItem.block objcSelectorBlockID (writeObjCSelectorBlockContents st),
       OutputItem.block globalVariableBlockID (writeGlobalVariableBlockContents st),
       OutputItem.block globalFunctionBlockID (writeGlobalFunctionBlockContents st),
       OutputItem.block enumConstantBlockID (writeEnumConstantBlockContents st),
       OutputItem.block tagBlockID (writeTagBlockContents st),
       OutputItem.block typedefBlockID (writeTypedefBlockContents st)] ∧
    outputBlockIds (writeToStream st) =
      [blockInfoBlockID, controlBlockID, identifierBlockID, objcContextBlockID,
       objcPropertyBlockID, objcMethodBlockID, objcSelectorBlockID,
       globalVariableBlockID, globalFunctionBlockID, enumConstantBlockID,
       tagBlockID, typedefBlockID] ∧
    (st.swiftInferImportAsMember = false →
      controlBlockContents st =
        [BCRecord.metadata versionMajor versionMinor,
         BCRecord.moduleName st.moduleName]) := by
  refine ⟨rfl, rfl, fun h => by simp [controlBlockContents, h]⟩

/-- Witness for C7 on a fresh writer (options flag unset). -/
theorem writeToStreamLayout_witness :
    outputBlockIds (writeToStream (mkWriter [77])) =
      [blockInfoBlockID, controlBlockID, identifierBlockID, objcContextBlockID,
       objcPropertyBlockID, objcMethodBlockID, objcSelectorBlockID,
       globalVariableBlockID, globalFunctionBlockID, enumConstantBlockID,
       tagBlockID, typedefBlockID] ∧
    controlBlockContents (mkWriter [77]) =
      [BCRecord.metadata versionMajor versionMinor, BCRecord.moduleName [77]] := by
  have T := writeToStreamLayout (mkWriter [77])
  exact ⟨T.2.1, T.2.2 rfl⟩

/-! ## C8: the reserved leading zero of every table blob -/

theorem buildTableBlob_spec (entries : List ByteStr) :
    (buildTableBlob entries).2.take 4 = u32le 0 ∧ 4 ≤ (buildTableBlob entries).1 := by
  constructor
  · show ((u32le 0 ++ entries.flatten) ++ u32le entries.length).take 4 = u32le 0
    rw [List.append_assoc]
    exact List.take_left' (by simp)
  · show 4 ≤ (u32le 0 ++ entries.flatten).length
    simp

/-- C8.  Every non-empty on-disk hash table blob begins with the reserved
4-byte zero written before the table body, and the stored table-root offset —
having at least those 4 bytes before it — is never 0, keeping 0 usable as the
"no such table" sentinel.  This holds for the identifier table and for every
entity-kind table. -/
theorem nonEmptyTableBlobSentinel (st : WriterState) :
    (st.identifierIDs ≠ [] → ∃ off blob,
      writeIdentifierBlockContents st = [BCRecord.tableData off blob] ∧
      blob.take 4 = u32le 0 ∧ 4 ≤ off ∧ off ≠ 0) ∧
    (st.objCContexts ≠ [] → ∃ off blob,
      writeObjCContextBlockContents st = [BCRecord.tableData off blob] ∧
      blob.take 4 = u32le 0 ∧ 4 ≤ off ∧ off ≠ 0) ∧
    (st.objCProperties ≠ [] → ∃ off blob,
      writeObjCPropertyBlockContents st = [BCRecord.tableData off blob] ∧
      blob.take 4 = u32le 0 ∧ 4 ≤ off ∧ off ≠ 0) ∧
    (st.objCMethods ≠ [] → ∃ off blob,
      writeObjCMethodBlockContents st = [BCRecord.tableData off blob] ∧
      blob.take 4 = u32le 0 ∧ 4 ≤ off ∧ off ≠ 0) ∧
    (st.selectorIDs ≠ [] → ∃ off blob,
      writeObjCSelectorBlockContents st = [BCRecord.tableData off blob] ∧
      blob.take 4 = u32le 0 ∧ 4 ≤ off ∧ off ≠ 0) ∧
    (st.globalVariables ≠ [] → ∃ off blob,
      writeGlobalVariableBlockContents st = [BCRecord.tableData off blob] ∧
      blob.take 4 = u32le 0 ∧ 4 ≤ off ∧ off ≠ 0) ∧
    (st.globalFunctions ≠ [] → ∃ off blob,
      writeGlobalFunctionBlockContents st = [BCRecord.tableData off blob] ∧
      blob.take 4 = u32le 0 ∧ 4 ≤ off ∧ off ≠ 0) ∧
    (st.enumConstants ≠ [] → ∃ off blob,
      writeEnumConstantBlockContents st = [BCRecord.tableData off blob] ∧
      blob.take 4 = u32le 0 ∧ 4 ≤ off ∧ off ≠ 0) ∧
    (st.tags ≠ [] → ∃ off blob,
      writeTagBlockContents st = [BCRecord.tableData off blob] ∧
      blob.take 4 = u32le 0 ∧ 4 ≤ off ∧ off ≠ 0) ∧
    (st.typedefs ≠ [] → ∃ off blob,
      writeTypedefBlockContents st = [BCRecord.tableData off blob] ∧
      blob.take 4 = u32le 0 ∧ 4 ≤ off ∧ off ≠ 0) := by
  refine ⟨?_, ?_, ?_, ?_, ?_, ?_, ?_, ?_, ?_, ?_⟩ <;> intro h
  · have hs := buildTableBlob_spec (st.identifierIDs.map identifierTableEntry)
    exact ⟨_, _, by simp [writeIdentifierBlockContents, h], hs.1, hs.2,
      by have := hs.2; omega⟩
  · have hs := buildTableBlob_spec (st.objCContexts.map objCContextTableEntry)
    exact ⟨_, _, by simp [writeObjCContextBlockContents, h], hs.1, hs.2,
      by have := hs.2; omega⟩
  · have hs := buildTableBlob_spec (st.objCProperties.map objCPropertyTableEntry)
    exact ⟨_, _, by simp [writeObjCPropertyBlockContents, h], hs.1, hs.2,
      by have := hs.2; omega⟩
  · have hs := buildTableBlob_spec (st.objCMethods.map objCMethodTableEntry)
    exact ⟨_, _, by simp [writeObjCMethodBlockContents, h], hs.1, hs.2,
      by have := hs.2; omega⟩
  · have hs := buildTableBlob_spec (st.selectorIDs.map objCSelectorTableEntry)
    exact ⟨_, _, by simp [writeObjCSelectorBlockContents, h], hs.1, hs.2,
      by have := hs.2; omega⟩
  · have hs := buildTableBlob_spec (st.globalVariables.map globalVariableTableEntry)
    exact ⟨_, _, by simp [writeGlobalVariableBlockContents, h], hs.1, hs.2,
      by have := hs.2; omega⟩
  · have hs := buildTableBlob_spec (st.globalFunctions.map globalFunctionTableEntry)
    exact ⟨_, _, by simp [writeGlobalFunctionBlockContents, h], hs.1, hs.2,
      by have := hs.2; omega⟩
  · have hs := buildTableBlob_spec (st.enumConstants.map enumConstantTableEntry)
    exact ⟨_, _, by simp [writeEnumConstantBlockContents, h], hs.1, hs.2,
      by have := hs.2; omega⟩
  · have hs := buildTableBlob_spec (st.tags.map tagTableEntry)
    exact ⟨_, _, by simp [writeTagBlockContents, h], hs.1, hs.2,
      by have := hs.2; omega⟩
  · have hs := buildTableBlob_spec (st.typedefs.map typedefTableEntry)
    exact ⟨_, _, by simp [writeTypedefBlockContents, h], hs.1, hs.2,
      by have := hs.2; omega⟩

/-- A writer with at least one record of every kind, for the C8 witness. -/
def fullState : WriterState :=
  { dupState with
    objCContexts := [((1, 0), (1, ctxSample))],
    objCContextNames := [(1, 1)] }

/-- Witness for C8: every table of `fullState` is non-empty, carries the
leading 4-byte zero, and stores a non-zero root offset. -/
theorem nonEmptyTableBlobSentinel_witness :
    (∃ off blob, writeIdentifierBlockContents fullState = [BCRecord.tableData off blob] ∧
      blob.take 4 = u32le 0 ∧ 4 ≤ off ∧ off ≠ 0) ∧
    (∃ off blob, writeObjCContextBlockContents fullState = [BCRecord.tableData off blob] ∧
      blob.take 4 = u32le 0 ∧ 4 ≤ off ∧ off ≠ 0) ∧
    (∃ off blob, writeObjCPropertyBlockContents fullState = [BCRecord.tableData off blob] ∧
      blob.take 4 = u32le 0 ∧ 4 ≤ off ∧ off ≠ 0) ∧
    (∃ off blob, writeObjCMethodBlockContents fullState = [BCRecord.tableData off blob] ∧
      blob.take 4 = u32le 0 ∧ 4 ≤ off ∧ off ≠ 0) ∧
    (∃ off blob, writeObjCSelectorBlockContents fullState = [BCRecord.tableData off blob] ∧
      blob.take 4 = u32le 0 ∧ 4 ≤ off ∧ off ≠ 0) ∧
    (∃ off blob, writeGlobalVariableBlockContents fullState = [BCRecord.tableData off blob] ∧
      blob.take 4 = u32le 0 ∧ 4 ≤ off ∧ off ≠ 0) ∧
    (∃ off blob, writeGlobalFunctionBlockContents fullState = [BCRecord.tableData off blob] ∧
      blob.take 4 = u32le 0 ∧ 4 ≤ off ∧ off ≠ 0) ∧
    (∃ off blob, writeEnumConstantBlockContents fullState = [BCRecord.tableData off blob] ∧
      blob.take 4 = u32le 0 ∧ 4 ≤ off ∧ off ≠ 0) ∧
    (∃ off blob, writeTagBlockContents fullState = [BCRecord.tableData off blob] ∧
      blob.take 4 = u32le 0 ∧ 4 ≤ off ∧ off ≠ 0) ∧
    (∃ off blob, writeTypedefBlockContents fullState = [BCRecord.tableData off blob] ∧
      blob.take 4 = u32le 0 ∧ 4 ≤ off ∧ off ≠ 0) := by
  have T := nonEmptyTableBlobSentinel fullState
  exact ⟨T.1 (by decide), T.2.1 (by decide), T.2.2.1 (by decide),
    T.2.2.2.1 (by decide), T.2.2.2.2.1 (by decide), T.2.2.2.2.2.1 (by decide),
    T.2.2.2.2.2.2.1 (by decide), T.2.2.2.2.2.2.2.1 (by decide),
    T.2.2.2.2.2.2.2.2.1 (by decide), T.2.2.2.2.2.2.2.2.2 (by decide)⟩

/-! ## C9: the common-entity payload encoding -/

/-- C9.  The serialized common-entity payload is, in order: one flag byte
with bit 0 = unavailable-in-derived-ecosystem, bit 1 = unavailable and
bit 2 = ecosystem-private; then the 2-byte little-endian length and bytes of
the unavailable message; then the 2-byte length and bytes of the preferred
external name — with no terminators or padding — and its total size is 5
bytes plus the two string lengths, exactly what `getCommonEntityInfoSize`
reports. -/
theorem commonEntityPayloadLayout (info : CommonEntityInfo) :
    ∃ flag,
      emitCommonEntityInfo info =
        flag :: (u16le info.unavailableMsg.length ++ info.unavailableMsg ++
          u16le info.swiftName.length ++ info.swiftName) ∧
      flag.testBit 0 = info.unavailableInSwift ∧
      flag.testBit 1 = info.unavailable ∧
      flag.testBit 2 = info.swiftPrivate ∧
      flag < 8 ∧
      (emitCommonEntityInfo info).length = getCommonEntityInfoSize info ∧
      (emitCommonEntityInfo info).length =
        5 + info.unavailableMsg.length + info.swiftName.length := by
  obtain ⟨msg, unav, uis, sp, name⟩ := info
  refine ⟨(boolByte sp * 4 + boolByte unav * 2 + boolByte uis) % 256,
    rfl, ?_, ?_, ?_, ?_, ?_, ?_⟩
  · cases unav <;> cases uis <;> cases sp <;> simp [boolByte]
  · cases unav <;> cases uis <;> cases sp <;> simp [boolByte] <;> decide
  · cases unav <;> cases uis <;> cases sp <;> simp [boolByte] <;> decide
  · cases unav <;> cases uis <;> cases sp <;> simp [boolByte]
  · simp [emitCommonEntityInfo, getCommonEntityInfoSize, u16le]
    omega
  · simp [emitCommonEntityInfo, u16le]
    omega
